import Mathlib

/-!
Verification of the session/profile synchronization core of the
user-login-dashboard application, embedded shallowly from its three source
files: `src/pages/Dashboard.tsx`, `src/pages/Index.tsx` and
`src/components/ProfileForm.tsx`.

Modelling conventions:
- ISO-8601 timestamp strings (`created_at`, `updated_at`,
  `new Date().toISOString()`) are modelled as naturals ordered as instants.
- A React `useState` cell is a field of an explicit state record; a
  `useEffect` reaction and an async completion handler become steps of an
  explicit step function driven by discrete events.
- `toast.success` / `toast.error` calls append to an explicit toast list.
- An async supabase call is modelled by an event carrying its outcome:
  `ok` (the `{ data }` branch), `err` (the returned `{ error }` branch),
  `exn` (a thrown exception caught by the surrounding `catch`).
-/

/-- A supabase auth user as consumed by the pages: `user.id`, `user.email`,
`user.created_at`. -/
structure Session where
  id : String
  email : String
  created_at : Nat
deriving DecidableEq, Repr

/-- The `UserProfile` interface of `Dashboard.tsx` (also the `profile` prop
shape of `ProfileForm.tsx`). -/
structure Profile where
  id : String
  first_name : Option String
  last_name : Option String
  email : Option String
  created_at : Nat
  updated_at : Nat
deriving DecidableEq, Repr

/-- A notification handed to the `toast` sink. -/
inductive Toast where
  | success (msg : String)
  | error (msg : String)
deriving DecidableEq, Repr

/-- Failure kinds a profile fetch can report (spec taxonomy §7): `notFound`
for a missing row, `transient` for a network/store failure. The code
receives either through the returned `error` field of the supabase reply. -/
inductive FetchFail where
  | notFound
  | transient
deriving DecidableEq, Repr

/-- Outcome of the supabase `select ... single()` call in
`Dashboard.fetchProfile`: the `{ data }` branch, the `{ error }` branch
(carrying a failure kind), or a thrown exception reaching the `catch`. -/
inductive FetchOutcome where
  | ok (p : Profile)
  | err (k : FetchFail)
  | exn
deriving DecidableEq, Repr

/-- Events driving the Dashboard component: a change of the auth user
(re-running the `useEffect` of lines 29-54), or the completion of the k-th
started fetch with some outcome. -/
inductive DashEvent where
  | sessionChange (user : Option Session)
  | fetchComplete (k : Nat) (outcome : FetchOutcome)
deriving DecidableEq, Repr

/-- The Dashboard component state: the `user` from `useAuthContext`, the
`profile` and `loading` `useState` cells, the set of started-but-unresolved
fetches (fetch id paired with the captured `user.id`), a counter numbering
started fetches, and the toasts emitted so far. -/
structure DashState where
  user : Option Session
  profile : Option Profile
  loading : Bool
  pending : List (Nat × String)
  nextId : Nat
  toasts : List Toast
deriving DecidableEq, Repr

/-- Initial Dashboard state: `useState(null)` for profile,
`useState(true)` for loading, nothing fetched yet. -/
def dashInit : DashState :=
  { user := none, profile := none, loading := true, pending := [], nextId := 0, toasts := [] }

/-- One reaction step of the Dashboard, from `Dashboard.tsx` lines 29-54.
On a session change the effect re-runs: with a user present it starts a
fetch capturing that user's id (it does not touch `profile` or `loading`);
with no user it does nothing beyond recording the absent user. On a fetch
completion, if that fetch was started and is still unresolved, the handler
runs: `data` branch sets the profile, `error` branch toasts
`Failed to load profile data`, the `catch` branch only logs; the
`finally` clears `loading` in all three branches. Nothing compares the
completing fetch against the current user: there is no generation check. -/
def DashState.step (s : DashState) : DashEvent → DashState
  | .sessionChange u =>
    match u with
    | some sess =>
      { s with user := some sess,
               pending := s.pending ++ [(s.nextId, sess.id)],
               nextId := s.nextId + 1 }
    | none => { s with user := none }
  | .fetchComplete k outcome =>
    if s.pending.any (fun q => q.1 == k) then
      let s' := { s with pending := s.pending.filter (fun q => q.1 != k) }
      match outcome with
      | .ok p => { s' with profile := some p, loading := false }
      | .err _ =>
        { s' with loading := false,
                  toasts := s'.toasts ++ [Toast.error "Failed to load profile data"] }
      | .exn => { s' with loading := false }
    else s

/-- Run the Dashboard over a sequence of events. -/
def DashState.run (s : DashState) (evs : List DashEvent) : DashState :=
  evs.foldl DashState.step s

/-- What `Dashboard.tsx` renders (lines 74-80): the Loading view whenever
`loading` is true, the dashboard view otherwise. -/
inductive DashRender where
  | loadingView
  | dashboardView
deriving DecidableEq, Repr

/-- The render decision of `Dashboard.tsx` lines 74-80. -/
def DashState.render (s : DashState) : DashRender :=
  if s.loading then .loadingView else .dashboardView

/-- The `formData` cell of `ProfileForm.tsx`: three plain strings. -/
structure FormData where
  first_name : String
  last_name : String
  email : String
deriving DecidableEq, Repr

/-- Component state of `ProfileForm.tsx`: the `isOpen`, `loading` and
`formData` `useState` cells. -/
structure FormState where
  isOpen : Bool
  loading : Bool
  formData : FormData
deriving DecidableEq, Repr

/-- `useState` initializer of `formData` (`ProfileForm.tsx` lines 22-26):
each field from the profile, empty string when absent. It runs once, when
the component mounts. -/
def initFormData (p : Profile) : FormData :=
  { first_name := p.first_name.getD ""
    last_name := p.last_name.getD ""
    email := p.email.getD "" }

/-- The mounted `ProfileForm` before any interaction: dialog closed, not
submitting, draft initialized from the profile prop. -/
def initFormState (p : Profile) : FormState :=
  { isOpen := false, loading := false, formData := initFormData p }

/-- The named form fields `handleInputChange` can address. -/
inductive FormField where
  | first_name
  | last_name
  | email
deriving DecidableEq, Repr

/-- Update one `formData` field by name, as
`setFormData(prev => ({ ...prev, [name]: value }))` does. -/
def FormData.setField : FormData → FormField → String → FormData
  | fd, .first_name, v => { fd with first_name := v }
  | fd, .last_name, v => { fd with last_name := v }
  | fd, .email, v => { fd with email := v }

/-- `handleInputChange` of `ProfileForm.tsx`: writes the changed input's
value into the draft. (The email input is rendered `disabled`, so the UI
never emits a change event for `FormField.email`.) -/
def handleInputChange (s : FormState) (f : FormField) (v : String) : FormState :=
  { s with formData := s.formData.setField f v }

/-- Opening the edit dialog (`DialogTrigger` button: `setIsOpen(true)`).
It sets only `isOpen`; `formData` is whatever the cell already holds. -/
def openDialog (s : FormState) : FormState :=
  { s with isOpen := true }

/-- The Cancel button (`ProfileForm.tsx` lines 129-138): `setIsOpen(false)`
and nothing else. -/
def cancelDialog (s : FormState) : FormState :=
  { s with isOpen := false }

/-- The update object `handleSubmit` sends to
`supabase.from(profiles).update({...})` (`ProfileForm.tsx` lines 44-53).
A field that is `none` is absent from the patch. The code sends
`first_name`, `last_name` and a client-clock `updated_at`; it never sends
an email field. -/
structure UpdatePatch where
  first_name : Option String
  last_name : Option String
  email : Option String
  updated_at : Option Nat
deriving DecidableEq, Repr

/-- The concrete patch built by `handleSubmit` from the draft, with `now`
standing for `new Date().toISOString()`. -/
def submitPatch (fd : FormData) (now : Nat) : UpdatePatch :=
  { first_name := some fd.first_name
    last_name := some fd.last_name
    email := none
    updated_at := some now }

/-- How the profile store applies an update patch to a stored row: a field
present in the patch overwrites the column, a field absent from the patch
leaves the column unchanged (`id` and `created_at` are never in a patch).
The row returned by `update(...).select().single()` on success is the row
after this application. -/
def applyPatch (p : Profile) (patch : UpdatePatch) : Profile :=
  { p with
    first_name := match patch.first_name with | some v => some v | none => p.first_name
    last_name := match patch.last_name with | some v => some v | none => p.last_name
    email := match patch.email with | some v => some v | none => p.email
    updated_at := match patch.updated_at with | some t => t | none => p.updated_at }

/-- Failure kinds a profile update can report (spec taxonomy §7). -/
inductive UpdFail where
  | notFound
  | transient
  | conflict
deriving DecidableEq, Repr

/-- Outcome of the supabase update call in `ProfileForm.handleSubmit`:
`{ data }`, `{ error }` with a kind, or a thrown exception. -/
inductive UpdateOutcome where
  | ok (p : Profile)
  | err (k : UpdFail)
  | exn
deriving DecidableEq, Repr

/-- Completion of `ProfileForm.handleSubmit` (`ProfileForm.tsx` lines
39-69) acting on the Dashboard state (whose `setProfile` is reached through
the `onProfileUpdate` prop, `Dashboard.tsx` lines 70-72) and the form
state. Success: success toast, the returned row becomes the Dashboard
profile with no re-fetch, dialog closes. Returned error: error toast, no
profile change, dialog stays as it was — the draft is untouched. Thrown
exception: generic error toast, same preservation. `finally` clears the
form's `loading` flag in every branch. -/
def handleSubmitResult (dash : DashState) (s : FormState) :
    UpdateOutcome → DashState × FormState
  | .ok p =>
    ({ dash with profile := some p,
                 toasts := dash.toasts ++ [Toast.success "Profile updated successfully!"] },
     { s with isOpen := false, loading := false })
  | .err _ =>
    ({ dash with toasts := dash.toasts ++ [Toast.error "Failed to update profile"] },
     { s with loading := false })
  | .exn =>
    ({ dash with toasts := dash.toasts ++ [Toast.error "An unexpected error occurred"] },
     { s with loading := false })

/-- The views the navigation guard distinguishes: the anonymous landing
page (`Index.tsx`) and the authenticated dashboard (`Dashboard.tsx`). -/
inductive View where
  | index
  | dashboard
deriving DecidableEq, Repr

/-- The redirect `useEffect` of `Index.tsx` lines 14-18, a function of the
auth context's `loading` (Pending) flag and `user`:
`if (!loading && user) navigate(/dashboard)`. -/
def indexRedirect (loading : Bool) (user : Option Session) : Option View :=
  if !loading && user.isSome then some .dashboard else none

/-- The session-store-change redirect reaction of each view. `Index.tsx`
has the effect above; `Dashboard.tsx` contains no session-store-change
redirect effect at all, so on the dashboard view no redirect decision is a
function of a store change. -/
def guardReact : View → Bool → Option Session → Option View
  | .index, loading, user => indexRedirect loading user
  | .dashboard, _, _ => none

/-- Outcome of the `signOut()` call in `Dashboard.handleLogout`. -/
inductive SignOutOutcome where
  | ok
  | err
  | exn
deriving DecidableEq, Repr

/-- Result of `handleLogout`: where it navigates (if anywhere) and the
toast it emits. -/
structure LogoutResult where
  nav : Option View
  toast : Toast
deriving DecidableEq, Repr

/-- `Dashboard.handleLogout` (lines 56-68): on sign-out success, success
toast and `navigate(/)`; on a returned error or a thrown exception, an
error toast and no navigation. -/
def handleLogout : SignOutOutcome → LogoutResult
  | .ok => { nav := some .index, toast := Toast.success "Signed out successfully" }
  | .err => { nav := none, toast := Toast.error "Failed to sign out" }
  | .exn => { nav := none, toast := Toast.error "An unexpected error occurred" }

/-- A concrete first session used in counterexample traces. -/
def sessA : Session := { id := "user-a", email := "a@example.com", created_at := 10 }

/-- A concrete second session used in counterexample traces. -/
def sessB : Session := { id := "user-b", email := "b@example.com", created_at := 20 }

/-- The profile row of `sessA`. -/
def profA : Profile :=
  { id := "user-a", first_name := some "Alice", last_name := some "Ames"
    email := some "a@example.com", created_at := 10, updated_at := 10 }

/-- The profile row of `sessB`. -/
def profB : Profile :=
  { id := "user-b", first_name := some "Bob", last_name := some "Baker"
    email := some "b@example.com", created_at := 20, updated_at := 20 }

/-- Claim C1 counterexample. The claim says a fetch result started for an
earlier session generation is never applied once a newer generation has
started, so the final state reflects only the fetch of the most recent
session change. Concrete trace: session changes to `sessA` then to `sessB`
(fetches 0 and 1 start); fetch 1 resolves with `profB`, then the stale
fetch 0 resolves with `profA`. The code applies the stale result: the
final profile is `profA`, not `profB` of the most recent session. -/
theorem c1_counterexample :
    (DashState.run dashInit
      [DashEvent.sessionChange (some sessA),
       DashEvent.sessionChange (some sessB),
       DashEvent.fetchComplete 1 (FetchOutcome.ok profB),
       DashEvent.fetchComplete 0 (FetchOutcome.ok profA)]).profile = some profA
    ∧ profA ≠ profB := by
  exact ⟨rfl, by decide⟩

/-- Claim C1 (amended): the Dashboard fetch reaction has no generation
counter; any fetch that was started and is still unresolved has its result
applied unconditionally when it completes, regardless of session changes in
between, so the final profile reflects the last fetch to resolve, not
necessarily the most recent session change. -/
theorem c1_stale_fetch_applied (s : DashState) (k : Nat) (p : Profile)
    (h : s.pending.any (fun q => q.1 == k) = true) :
    (s.step (DashEvent.fetchComplete k (FetchOutcome.ok p))).profile = some p
    ∧ (s.step (DashEvent.fetchComplete k (FetchOutcome.ok p))).loading = false := by
  simp [DashState.step, h]

/-- Witness for `c1_stale_fetch_applied` at a concrete stale state: after
session changes to `sessA` then `sessB`, the fetch started for `sessA`
(id 0) is still pending, and completing it installs its profile. -/
theorem c1_stale_fetch_applied_witness :
    ((DashState.run dashInit
        [DashEvent.sessionChange (some sessA),
         DashEvent.sessionChange (some sessB)]).pending.any (fun q => q.1 == 0) = true)
    ∧ ((DashState.run dashInit
        [DashEvent.sessionChange (some sessA),
         DashEvent.sessionChange (some sessB)]).step
          (DashEvent.fetchComplete 0 (FetchOutcome.ok profA))).profile = some profA :=
  ⟨by decide, (c1_stale_fetch_applied _ 0 profA (by decide)).1⟩

/-- Claim C2 counterexample. The claim says that on the session becoming
Settled+None the cached profile is discarded (state `Idle`) and a late
fetch of the prior session causes no transition. Concretely: (trace 1)
sign-in as `sessA`, its fetch resolves, then the session becomes `none` —
the cached profile is still `profA`, not discarded; (trace 2) the session
becomes `none` while the fetch is still in flight, and the late result is
still applied, leaving profile `profA` instead of none. -/
theorem c2_counterexample :
    (DashState.run dashInit
      [DashEvent.sessionChange (some sessA),
       DashEvent.fetchComplete 0 (FetchOutcome.ok profA),
       DashEvent.sessionChange none]).profile = some profA
    ∧ (DashState.run dashInit
      [DashEvent.sessionChange (some sessA),
       DashEvent.sessionChange none,
       DashEvent.fetchComplete 0 (FetchOutcome.ok profA)]).profile = some profA
    ∧ some profA ≠ (none : Option Profile) := by
  exact ⟨rfl, rfl, by decide⟩

/-- Claim C2 (amended): when the session becomes None the Dashboard fetch
reaction does nothing except record the absent user — the cached profile,
the loading flag, the pending fetches and the emitted toasts are all left
exactly as they were, and any pending fetch remains applicable later. -/
theorem c2_session_none_is_noop (s : DashState) :
    s.step (DashEvent.sessionChange none) = { s with user := none } := rfl

/-- Claim C7 counterexample. The claim says a NotFound fetch failure yields
`Error(NoProfile)` while a TransientError yields `Error(FetchFailed)` —
two distinguishable states. In the code both failure kinds land in the same
`if (error)` branch and produce identical states: at the concrete state
after signing in as `sessA`, completing the fetch with NotFound and with
TransientError give equal results (same generic toast, no error field at
all). -/
theorem c7_counterexample :
    (DashState.run dashInit [DashEvent.sessionChange (some sessA)]).step
        (DashEvent.fetchComplete 0 (FetchOutcome.err FetchFail.notFound))
      = (DashState.run dashInit [DashEvent.sessionChange (some sessA)]).step
        (DashEvent.fetchComplete 0 (FetchOutcome.err FetchFail.transient)) := rfl

/-- Claim C7 (amended): on a returned fetch failure of any kind the
Dashboard reaches one and the same state: the profile is untouched,
loading is cleared, and a single generic notification
(`Failed to load profile data`) is emitted; the failure kinds are not
distinguished and no dedicated error state exists. No exception escapes:
every outcome yields a well-defined next state. -/
theorem c7_uniform_failure_handling (s : DashState) (k : Nat) (fk : FetchFail)
    (h : s.pending.any (fun q => q.1 == k) = true) :
    s.step (DashEvent.fetchComplete k (FetchOutcome.err fk))
      = { s with pending := s.pending.filter (fun q => q.1 != k),
                 loading := false,
                 toasts := s.toasts ++ [Toast.error "Failed to load profile data"] } := by
  simp [DashState.step, h]

/-- Witness for `c7_uniform_failure_handling`: after signing in as `sessA`,
a NotFound completion of the pending fetch produces exactly the generic
failure state. -/
theorem c7_uniform_failure_handling_witness :
    ((DashState.run dashInit [DashEvent.sessionChange (some sessA)]).pending.any
        (fun q => q.1 == 0) = true)
    ∧ ((DashState.run dashInit [DashEvent.sessionChange (some sessA)]).step
        (DashEvent.fetchComplete 0 (FetchOutcome.err FetchFail.notFound))).toasts
      = [Toast.error "Failed to load profile data"] := by
  refine ⟨by decide, ?_⟩
  rw [c7_uniform_failure_handling _ 0 FetchFail.notFound (by decide)]
  rfl

/-- Helper: a Dashboard run in which every session change carries no user
never leaves the initial state. -/
theorem run_without_session_fixed (evs : List DashEvent)
    (h : ∀ u, DashEvent.sessionChange u ∈ evs → u = none) :
    DashState.run dashInit evs = dashInit := by
  induction evs with
  | nil => rfl
  | cons e t ih =>
    have he : DashState.step dashInit e = dashInit := by
      cases e with
      | sessionChange u =>
        have hu : u = none := h u (by simp)
        subst hu
        rfl
      | fetchComplete k o => rfl
    have : DashState.run dashInit (e :: t) = DashState.run (DashState.step dashInit e) t := rfl
    rw [this, he]
    exact ih (fun u hu => h u (List.mem_cons_of_mem _ hu))

/-- Claim C10: for every event sequence in which the session is never
present, the Dashboard starts no fetch (`nextId` still 0, nothing pending),
leaves the cached profile and the loading flag unchanged (`none` / `true`),
and therefore renders the Loading view indefinitely. -/
theorem c10_no_session_stays_loading (evs : List DashEvent)
    (h : ∀ u, DashEvent.sessionChange u ∈ evs → u = none) :
    (DashState.run dashInit evs).profile = none
    ∧ (DashState.run dashInit evs).loading = true
    ∧ (DashState.run dashInit evs).nextId = 0
    ∧ (DashState.run dashInit evs).pending = []
    ∧ (DashState.run dashInit evs).render = DashRender.loadingView := by
  rw [run_without_session_fixed evs h]
  exact ⟨rfl, rfl, rfl, rfl, rfl⟩

/-- Witness for `c10_no_session_stays_loading` on the concrete trace of a
single absent-session notification. -/
theorem c10_no_session_stays_loading_witness :
    (∀ u, DashEvent.sessionChange u ∈ [DashEvent.sessionChange none] → u = none)
    ∧ (DashState.run dashInit [DashEvent.sessionChange none]).render = DashRender.loadingView := by
  refine ⟨?_, ?_⟩
  · intro u hu
    simpa using hu
  · exact (c10_no_session_stays_loading [DashEvent.sessionChange none]
      (fun u hu => by simpa using hu)).2.2.2.2

/-- Claim C3: opening an edit session on profile `p`, editing `first_name`
to `v` and submitting with the repository succeeding (returning the row
with the patch applied) makes the returned row the Dashboard profile with
no re-fetch — the controller holds exactly the write result, whose
`first_name` is `v` — closes the dialog, and emits the success
notification. -/
theorem c3_edit_submit_success (dash : DashState) (p : Profile) (v : String) (now : Nat) :
    (handleSubmitResult dash
        (handleInputChange (openDialog (initFormState p)) FormField.first_name v)
        (UpdateOutcome.ok (applyPatch p (submitPatch
          (handleInputChange (openDialog (initFormState p)) FormField.first_name v).formData
          now)))).1.profile
      = some (applyPatch p (submitPatch
          (handleInputChange (openDialog (initFormState p)) FormField.first_name v).formData
          now))
    ∧ (applyPatch p (submitPatch
          (handleInputChange (openDialog (initFormState p)) FormField.first_name v).formData
          now)).first_name = some v
    ∧ (handleSubmitResult dash
        (handleInputChange (openDialog (initFormState p)) FormField.first_name v)
        (UpdateOutcome.ok (applyPatch p (submitPatch
          (handleInputChange (openDialog (initFormState p)) FormField.first_name v).formData
          now)))).2.isOpen = false
    ∧ (handleSubmitResult dash
        (handleInputChange (openDialog (initFormState p)) FormField.first_name v)
        (UpdateOutcome.ok (applyPatch p (submitPatch
          (handleInputChange (openDialog (initFormState p)) FormField.first_name v).formData
          now)))).1.toasts
      = dash.toasts ++ [Toast.success "Profile updated successfully!"] :=
  ⟨rfl, rfl, rfl, rfl⟩

/-- Claim C4: whatever the failure kind, a failed submit leaves the
Dashboard profile exactly as it was, keeps the form state unchanged apart
from clearing the submitting flag (so an open dialog stays open with the
draft intact), and emits the failure notification. -/
theorem c4_failed_submit_preserves (dash : DashState) (s : FormState) (k : UpdFail) :
    handleSubmitResult dash s (UpdateOutcome.err k)
      = ({ dash with toasts := dash.toasts ++ [Toast.error "Failed to update profile"] },
         { s with loading := false }) := rfl

/-- Claim C5 counterexample. The claim says the update patch sent by the
client never contains `updated_at`. The patch built by `handleSubmit` from
a concrete draft at client time 7 does contain it. -/
theorem c5_counterexample :
    (submitPatch { first_name := "Ada", last_name := "Lovelace", email := "ada@example.com" } 7).updated_at
      ≠ none := by
  decide

/-- Claim C5 (amended): `updated_at` is set by the client — every patch
`handleSubmit` sends carries `updated_at = now` from the client clock, and
the profile installed after a successful update carries that
client-supplied value, not a store-authoritative one. -/
theorem c5_client_supplied_updated_at (fd : FormData) (now : Nat) (p : Profile) :
    (submitPatch fd now).updated_at = some now
    ∧ (applyPatch p (submitPatch fd now)).updated_at = now :=
  ⟨rfl, rfl⟩

/-- Claim C6 counterexample. The claim says the patch contains only
`first_name` and `last_name`. The concrete patch built from a draft at
client time 7 also contains `updated_at`. -/
theorem c6_counterexample :
    submitPatch { first_name := "Ada", last_name := "Lovelace", email := "ada@example.com" } 7
      = { first_name := some "Ada", last_name := some "Lovelace",
          email := none, updated_at := some 7 }
    ∧ ({ first_name := some "Ada", last_name := some "Lovelace",
         email := none, updated_at := some 7 } : UpdatePatch).updated_at ≠ none := by
  exact ⟨rfl, by decide⟩

/-- Claim C6 (amended): every patch `handleSubmit` sends consists of
`first_name`, `last_name` and a client-set `updated_at`, and never an
email field — whatever the draft holds, including an edited email value —
so applying any such patch leaves the stored row's email unchanged. -/
theorem c6_email_never_in_patch (fd : FormData) (now : Nat) (p : Profile) :
    (submitPatch fd now).email = none
    ∧ (submitPatch fd now).first_name = some fd.first_name
    ∧ (submitPatch fd now).last_name = some fd.last_name
    ∧ (submitPatch fd now).updated_at = some now
    ∧ (applyPatch p (submitPatch fd now)).email = p.email :=
  ⟨rfl, rfl, rfl, rfl, rfl⟩

/-- Claim C8 counterexample. The claim says a cancelled draft is discarded
and any subsequent open starts from the profile's values. Concretely: open
the dialog on `profA` (first name `Alice`), edit the first name to
`Xavier`, cancel, open again — the draft still shows `Xavier`, not the
profile's `Alice`. -/
theorem c8_counterexample :
    (openDialog (cancelDialog
        (handleInputChange (openDialog (initFormState profA)) FormField.first_name "Xavier"))).formData.first_name
      = "Xavier"
    ∧ (initFormData profA).first_name = "Alice"
    ∧ ("Xavier" : String) ≠ "Alice" := by
  exact ⟨rfl, rfl, by decide⟩

/-- Claim C8 (amended): Cancel only closes the dialog — the draft is kept,
not discarded, and a subsequent open re-opens with exactly the leftover
draft (the `formData` initializer from the profile runs only at mount,
never on re-open). -/
theorem c8_cancel_keeps_draft (s : FormState) :
    cancelDialog s = { s with isOpen := false }
    ∧ (openDialog (cancelDialog s)).formData = s.formData :=
  ⟨rfl, rfl⟩

/-- Claim C9 counterexample. The claim says the guard redirects from an
authenticated-only view to the landing view exactly when the store is
Settled+None. At Settled+None (`loading = false`, no user) on the
dashboard view the code makes no redirect: `Dashboard.tsx` has no
session-store-change redirect effect. -/
theorem c9_counterexample :
    guardReact View.dashboard false none = none
    ∧ (none : Option View) ≠ some View.index := by
  exact ⟨rfl, by decide⟩

/-- Claim C9 (amended): the landing view's guard redirects to the
dashboard exactly when the store is settled with a session, and makes no
decision while pending; the dashboard view has no store-change-evaluated
guard at all — navigation back to the landing view happens only in the
sign-out handler, and only when sign-out succeeds. -/
theorem c9_guard_behavior :
    (∀ (l : Bool) (u : Option Session),
        indexRedirect l u = some View.dashboard ↔ (l = false ∧ u.isSome = true))
    ∧ (∀ u : Option Session, indexRedirect true u = none)
    ∧ (∀ (l : Bool) (u : Option Session), guardReact View.dashboard l u = none)
    ∧ (handleLogout SignOutOutcome.ok).nav = some View.index
    ∧ (handleLogout SignOutOutcome.err).nav = none
    ∧ (handleLogout SignOutOutcome.exn).nav = none := by
  refine ⟨?_, ?_, ?_, rfl, rfl, rfl⟩
  · intro l u
    cases l <;> cases u <;> simp [indexRedirect]
  · intro u
    rfl
  · intro l u
    rfl
